import Mathlib

/-!
Verification of the transaction-orchestration layer in
src/packages/algob/src/lib/tx.ts (algorand-builder).

The shallow embedding below translates tx.ts into Lean:

* JS numbers used for fees and rounds are modelled as Int; `??` (nullish
  coalescing on possibly-undefined fields) is `Option.getD` / a match;
  `if (x)` on a possibly-undefined string is JS truthiness (defined and
  non-empty), modelled by jsTruthy.
* The external node client is modelled by passing the raw response that
  `algocl.getTransactionParams().do()` would return.
* tx.ts mutates the suggested-params object in place, so object identity
  matters: a small heap (Store of Ref-indexed params objects) makes the
  aliasing explicit.  mkTxParamsAssign is the value-level merge performed by
  the assignment block of mkTxParams; mkTxParamsRef is the same block as an
  in-place update of the object held at a reference, returning the same
  reference, exactly as the source returns `s`.
* executeTransaction is modelled with an event trace (params fetch, per
  transaction build, group assignment, signer invocation, submission) so
  that ordering claims (fail before building / signing / submitting) are
  statable.

Definitions imported by tx.ts from the runtime package or from algosdk but
absent from the repository slice (encodeNote, mkTransaction, SignType,
algosdk.assignGroupID, makeAssetCreateTxnWithSuggestedParams) are modelled
from the spec and carry a doc comment saying so.
-/

namespace AlgoBuilder

/-- ALGORAND_MIN_TX_FEE, imported by tx.ts from lib/algo-operator (not in the
repository slice); the protocol minimum fee, 1000 micro-Algos.  Every claim
uses it symbolically, so only its positivity could matter. -/
def ALGORAND_MIN_TX_FEE : Int := 1000

/-- Errors thrown by tx.ts, named as in the spec taxonomy; each corresponds to
one `throw new Error(...)` site in the source. -/
inductive Err where
  | StaleNetworkError
  | GroupSizeExceededError
  | MissingLogicSigError
  | UnknownSignTypeError
  deriving Repr, DecidableEq

/-- SuggestedParams (algosdk): the raw network parameter object fetched from the
node and mutated by mkTxParams. -/
structure SuggestedParams where
  flatFee : Bool
  fee : Int
  firstRound : Int
  lastRound : Int
  genesisID : String
  genesisHash : String
  deriving Repr, DecidableEq, Inhabited

/-- TxParams (runtime types): user-supplied overrides; absent fields are none,
mirroring optional fields in TypeScript. -/
structure TxParams where
  totalFee : Option Int := none
  feePerByte : Option Int := none
  firstValid : Option Int := none
  validRounds : Option Int := none
  note : Option String := none
  noteb64 : Option String := none
  deriving Repr, DecidableEq, Inhabited

structure Account where
  addr : String
  sk : Nat
  deriving Repr, DecidableEq, Inhabited

/-- ASADeploymentFlags: creator plus the TxParams fields used by
makeAssetCreateTxn (flags.note / flags.noteb64). -/
structure ASADeploymentFlags where
  creator : Account
  totalFee : Option Int := none
  feePerByte : Option Int := none
  firstValid : Option Int := none
  validRounds : Option Int := none
  note : Option String := none
  noteb64 : Option String := none
  deriving Repr, DecidableEq, Inhabited

/-- ASADef: the asset definition fields passed through by makeAssetCreateTxn. -/
structure ASADef where
  total : Int
  decimals : Int
  defaultFrozen : Bool
  unitName : String
  url : Option String := none
  metadataHash : Option String := none
  manager : Option String := none
  reserve : Option String := none
  freeze : Option String := none
  clawback : Option String := none
  note : Option String := none
  noteb64 : Option String := none
  deriving Repr, DecidableEq, Inhabited

/-- getSuggestedParams (tx.ts lines 14-22): the external fetch is modelled by
passing the raw response; a response whose firstRound is 0 is rejected with
the stale-network error, otherwise the raw params are returned unchanged. -/
def getSuggestedParams (raw : SuggestedParams) : Except Err SuggestedParams :=
  if raw.firstRound = 0 then .error .StaleNetworkError else .ok raw

/-- mkTxParams assignment block (tx.ts lines 30-38), value level: the merged
value of the params object after the in-place assignments, as a function of
the user params and the object's prior value.  Each let mirrors one source
statement in order. -/
def mkTxParamsAssign (userParams : TxParams) (s : SuggestedParams) : SuggestedParams :=
  let s := { s with flatFee := userParams.totalFee.isSome }
  let s := { s with
    fee := userParams.totalFee.getD (userParams.feePerByte.getD ALGORAND_MIN_TX_FEE) }
  let s := if s.flatFee then { s with fee := max s.fee ALGORAND_MIN_TX_FEE } else s
  let s := { s with firstRound := userParams.firstValid.getD s.firstRound }
  let s := { s with lastRound :=
    match userParams.firstValid, userParams.validRounds with
    | some fv, some vr => fv + vr
    | _, _ => s.lastRound }
  s

/-- mkTxParams (tx.ts lines 26-39), value level: when no params object is
supplied the raw params are fetched (and the staleness check runs); an
explicitly supplied object skips the fetch entirely.  The merged value is
returned. -/
def mkTxParams (raw : SuggestedParams) (userParams : TxParams)
    (s : Option SuggestedParams) : Except Err SuggestedParams :=
  match s with
  | none =>
    match getSuggestedParams raw with
    | .error e => .error e
    | .ok sp => .ok (mkTxParamsAssign userParams sp)
  | some sp => .ok (mkTxParamsAssign userParams sp)

/-- References into the object store: TypeScript object identities. -/
abbrev Ref := Nat

/-- Heap of suggested-params objects, making aliasing and in-place mutation
observable. -/
structure Store where
  mem : Ref → SuggestedParams
  next : Nat

def Store.empty : Store := { mem := fun _ => default, next := 0 }

def Store.read (st : Store) (r : Ref) : SuggestedParams := st.mem r

def Store.write (st : Store) (r : Ref) (v : SuggestedParams) : Store :=
  { st with mem := fun x => if x = r then v else st.mem x }

/-- Allocation of a fresh object (an object literal or Object.assign copy). -/
def Store.alloc (st : Store) (v : SuggestedParams) : Ref × Store :=
  (st.next, { mem := fun x => if x = st.next then v else st.mem x, next := st.next + 1 })

/-- mkTxParams (tx.ts lines 30-39), object level: the same assignment block as
mkTxParamsAssign, but performed as the source performs it — by assigning the
fields of the object held at r one statement at a time, and finally returning
the very same reference (`return s`). -/
def mkTxParamsRef (userParams : TxParams) (r : Ref) (st : Store) : Ref × Store :=
  let st := st.write r { st.read r with flatFee := userParams.totalFee.isSome }
  let st := st.write r { st.read r with
    fee := userParams.totalFee.getD (userParams.feePerByte.getD ALGORAND_MIN_TX_FEE) }
  let st := if (st.read r).flatFee then
      st.write r { st.read r with fee := max (st.read r).fee ALGORAND_MIN_TX_FEE }
    else st
  let st := st.write r { st.read r with
    firstRound := userParams.firstValid.getD (st.read r).firstRound }
  let st := st.write r { st.read r with lastRound :=
    match userParams.firstValid, userParams.validRounds with
    | some fv, some vr => fv + vr
    | _, _ => (st.read r).lastRound }
  (r, st)

/-- Modelled from the spec: SignType from the runtime package (absent from the
repository slice) is a closed tagged variant with the two protocol signing
strategies; `other v` stands for an out-of-range runtime value reaching the
default branch of the dispatch (TypeScript enums are open at runtime). -/
inductive SignType where
  | SecretKey
  | LogicSignature
  | other (v : Nat)
  deriving Repr, DecidableEq

/-- ExecParams (runtime types): the fields of one transaction description that
tx.ts reads — signing strategy, signing credentials and user params. -/
structure ExecParams where
  sign : SignType
  fromAccount : Account
  lsig : Option Nat := none
  payFlags : TxParams := {}
  deriving Repr, DecidableEq

/-- Body of an unsigned transaction: the domain description together with the
resolved params it was built from. -/
structure TxBody where
  exec : ExecParams
  params : SuggestedParams
  deriving Repr, DecidableEq

/-- Unsigned transaction: body plus the group identifier, unset at
construction. -/
structure Transaction where
  body : TxBody
  group : Option (List TxBody) := none
  deriving Repr, DecidableEq

/-- Modelled from the spec: mkTransaction from the runtime package
(TransactionBuilder, absent from the repository slice) — a pure map from one
ExecParams and the resolved params to an unsigned transaction with no group
identifier. -/
def mkTransaction (p : ExecParams) (params : SuggestedParams) : Transaction :=
  { body := { exec := p, params := params }, group := none }

/-- Modelled from the spec: algosdk.assignGroupID (external collaborator) — a
deterministic, order-sensitive shared group identifier over the ordered
transaction set, assigned to every transaction of the list. -/
def assignGroupID (txns : List Transaction) : List Transaction :=
  txns.map fun t => { t with group := some (txns.map Transaction.body) }

/-- Signed transaction blob, tagged by the signing strategy that produced
it. -/
inductive SignedBlob where
  | bySk (t : Transaction) (sk : Nat)
  | byLsig (t : Transaction) (lsig : Nat)
  deriving Repr, DecidableEq

/-- signTransaction (tx.ts lines 98-114): dispatch on the signing strategy;
missing logic signature and unknown strategy are the two throw sites. -/
def signTransaction (txn : Transaction) (execParams : ExecParams) :
    Except Err SignedBlob :=
  match execParams.sign with
  | .SecretKey => .ok (.bySk txn execParams.fromAccount.sk)
  | .LogicSignature =>
    match execParams.lsig with
    | none => .error .MissingLogicSigError
    | some l => .ok (.byLsig txn l)
  | .other _ => .error .UnknownSignTypeError

/-- Observable effects of one executeTransaction call, in order: the single
raw params fetch, per-transaction builds, group-identifier assignment, signer
invocations, and the network submission. -/
inductive Event where
  | fetchParams
  | buildTx
  | assignGroup
  | signTx
  | submit
  deriving Repr, DecidableEq

/-- Argument of executeTransaction: one ExecParams or a list of them. -/
inductive ExecInput where
  | single (p : ExecParams)
  | list (ps : List ExecParams)
  deriving Repr, DecidableEq

/-- mkTx closure inside executeTransaction (tx.ts lines 144-146):
`Object.assign({}, suggestedParams)` allocates a fresh copy of the snapshot,
mkTxParams is called with that copy supplied (so its fetch path is dead:
mkTxParamsRef is exactly its supplied-object path), and the transaction is
built from the merged object. -/
def mkTx (snapRef : Ref) (p : ExecParams) (st : Store) : Transaction × Store :=
  let copy := st.alloc (st.read snapRef)
  let res := mkTxParamsRef p.payFlags copy.1 copy.2
  (mkTransaction p (res.2.read res.1), res.2)

/-- Build loop of the array branch (tx.ts line 150): one mkTx per entry,
threading the store, recording one build event per transaction. -/
def buildAll : List ExecParams → Ref → Store → List Transaction × Store × List Event
  | [], _, st => ([], st, [])
  | p :: rest, snapRef, st =>
    let r1 := mkTx snapRef p st
    let r2 := buildAll rest snapRef r1.2
    (r1.1 :: r2.1, r2.2.1, Event.buildTx :: r2.2.2)

/-- Signing loop of the array branch (tx.ts lines 152-156): signTransaction per
(transaction, execParams) pair in order; a throw aborts the remaining
signatures.  Each invocation of the signer records one event. -/
def signAll : List Transaction → List ExecParams → List Event × Except Err (List SignedBlob)
  | [], _ => ([], .ok [])
  | _ :: _, [] => ([], .ok [])
  | t :: ts, p :: ps =>
    match signTransaction t p with
    | .error e => ([.signTx], .error e)
    | .ok b =>
      match signAll ts ps with
      | (evs, .error e) => (.signTx :: evs, .error e)
      | (evs, .ok bs) => (.signTx :: evs, .ok (b :: bs))

/-- Result of one executeTransaction call: the event trace, the final object
store, the reference of the shared snapshot object, the built (and possibly
grouped) transactions, and the outcome. -/
structure ExecResult where
  trace : List Event
  store : Store
  snapRef : Ref
  txns : List Transaction
  result : Except Err (List SignedBlob)

/-- executeTransaction (tx.ts lines 133-160): fetch the raw params once; in the
array branch reject groups larger than 16 before any build, build every
transaction from its own copy of the snapshot, assign the group identifier,
sign each transaction, and submit; in the single branch build, sign and submit
one transaction with no grouping.  sendAndWait is the submit event. -/
def executeTransaction (raw : SuggestedParams) (input : ExecInput) : ExecResult :=
  match getSuggestedParams raw with
  | .error e =>
    { trace := [.fetchParams], store := Store.empty, snapRef := 0, txns := [],
      result := .error e }
  | .ok sp =>
    let a := Store.empty.alloc sp
    match input with
    | .list ps =>
      if ps.length > 16 then
        { trace := [.fetchParams], store := a.2, snapRef := a.1, txns := [],
          result := .error .GroupSizeExceededError }
      else
        let b := buildAll ps a.1 a.2
        let gts := assignGroupID b.1
        let sg := signAll gts ps
        match sg.2 with
        | .error e =>
          { trace := .fetchParams :: b.2.2 ++ .assignGroup :: sg.1,
            store := b.2.1, snapRef := a.1, txns := gts, result := .error e }
        | .ok bs =>
          { trace := .fetchParams :: b.2.2 ++ .assignGroup :: sg.1 ++ [.submit],
            store := b.2.1, snapRef := a.1, txns := gts, result := .ok bs }
    | .single p =>
      let m := mkTx a.1 p a.2
      match signTransaction m.1 p with
      | .error e =>
        { trace := [.fetchParams, .buildTx, .signTx], store := m.2,
          snapRef := a.1, txns := [m.1], result := .error e }
      | .ok blob =>
        { trace := [.fetchParams, .buildTx, .signTx, .submit], store := m.2,
          snapRef := a.1, txns := [m.1], result := .ok [blob] }

/-- Size bound of the array branch, in the spec's terms: a single transaction
always passes; a list passes when it has at most 16 entries. -/
def sizeOk : ExecInput → Bool
  | .single _ => true
  | .list ps => decide (ps.length ≤ 16)

/-- The transaction descriptions an input holds, in order. -/
def inputList : ExecInput → List ExecParams
  | .single p => [p]
  | .list ps => ps

/-- Encoded note bytes; base64 decoding and UTF-8 encoding are kept abstract
(both injective on their argument). -/
inductive NoteBytes where
  | fromB64 (s : String)
  | fromText (s : String)
  deriving Repr, DecidableEq

/-- Modelled from the spec: encodeNote from the runtime package (NoteEncoder,
absent from the repository slice) — the base64 note is checked first and wins;
otherwise the raw note is encoded; with neither present the result is
empty. -/
def encodeNote (note : Option String) (noteb64 : Option String) : Option NoteBytes :=
  match noteb64 with
  | some b => some (.fromB64 b)
  | none =>
    match note with
    | some n => some (.fromText n)
    | none => none

/-- JavaScript truthiness of a possibly-undefined string: defined and
non-empty. -/
def jsTruthy : Option String → Bool
  | none => false
  | some s => !s.isEmpty

/-- JavaScript nullish coalescing on possibly-undefined strings: the left
operand unless it is undefined. -/
def nullishOr (a b : Option String) : Option String :=
  match a with
  | none => b
  | some v => some v

/-- Modelled from the spec: the unsigned asset-creation transaction produced by
algosdk.makeAssetCreateTxnWithSuggestedParams (external collaborator), as a
record of the arguments tx.ts passes it. -/
structure AssetCreateTxn where
  creatorAddr : String
  note : Option NoteBytes
  total : Int
  decimals : Int
  defaultFrozen : Bool
  manager : Option String
  reserve : Option String
  freeze : Option String
  clawback : Option String
  unitName : String
  assetName : String
  url : Option String
  metadataHash : Option String
  params : SuggestedParams
  deriving Repr, DecidableEq

/-- makeAssetCreateTxn (tx.ts lines 41-71): the note is selected by
`if (flags.noteb64 ?? flags.note) ... else if (asaDef.noteb64 ?? asaDef.note)`
(JS truthiness of the coalesced value) and only then encoded from the chosen
source's two fields; the rest of the fields are passed straight through. -/
def makeAssetCreateTxn (name : String) (asaDef : ASADef) (flags : ASADeploymentFlags)
    (txSuggestedParams : SuggestedParams) : AssetCreateTxn :=
  let note : Option NoteBytes :=
    if jsTruthy (nullishOr flags.noteb64 flags.note) then
      encodeNote flags.note flags.noteb64
    else if jsTruthy (nullishOr asaDef.noteb64 asaDef.note) then
      encodeNote asaDef.note asaDef.noteb64
    else none
  { creatorAddr := flags.creator.addr
    note := note
    total := asaDef.total
    decimals := asaDef.decimals
    defaultFrozen := asaDef.defaultFrozen
    manager := asaDef.manager
    reserve := asaDef.reserve
    freeze := asaDef.freeze
    clawback := asaDef.clawback
    unitName := asaDef.unitName
    assetName := name
    url := asaDef.url
    metadataHash := asaDef.metadataHash
    params := txSuggestedParams }

/-- Concrete raw-params fixture (a healthy network response). -/
def rawEx : SuggestedParams :=
  { flatFee := false, fee := 1, firstRound := 3, lastRound := 1003,
    genesisID := "g", genesisHash := "gh" }

/-- Concrete raw-params fixture with firstRound 0 (stale network). -/
def rawStale : SuggestedParams := { rawEx with firstRound := 0 }

/-- Concrete secret-key-signed transaction description. -/
def pEx : ExecParams :=
  { sign := .SecretKey, fromAccount := { addr := "A", sk := 7 } }

/-- Concrete user params with a total fee of 5000. -/
def uEx : TxParams := { totalFee := some 5000 }

/-- Concrete user params with firstValid 100 and validRounds 50. -/
def uFV : TxParams := { firstValid := some 100, validRounds := some 50 }

/-- Concrete store holding one params object (rawEx) at reference 0. -/
def stEx : Store := (Store.empty.alloc rawEx).2

/-- Concrete deployment flags carrying a defined-but-empty base64 note next to
a non-empty raw note. -/
def flagsEx : ASADeploymentFlags :=
  { creator := { addr := "C", sk := 9 }, note := some "hello", noteb64 := some "" }

/-- Concrete deployment flags carrying only a base64 note. -/
def flagsB64 : ASADeploymentFlags :=
  { creator := { addr := "C", sk := 9 }, noteb64 := some "abc" }

/-- Concrete asset definition carrying its own raw note. -/
def asaDefEx : ASADef :=
  { total := 1000, decimals := 0, defaultFrozen := false, unitName := "GLD",
    note := some "x" }

/-- Concrete unsigned transaction. -/
def txEx : Transaction := mkTransaction pEx rawEx

theorem getSuggestedParams_ok {raw : SuggestedParams} (h : raw.firstRound ≠ 0) :
    getSuggestedParams raw = .ok raw := by
  simp [getSuggestedParams, h]

theorem Store.read_alloc (st : Store) (v : SuggestedParams) (x : Ref) :
    (st.alloc v).2.read x = if x = st.next then v else st.read x := rfl

theorem Store.alloc_fst (st : Store) (v : SuggestedParams) :
    (st.alloc v).1 = st.next := rfl

theorem Store.alloc_next (st : Store) (v : SuggestedParams) :
    (st.alloc v).2.next = st.next + 1 := rfl

theorem mkTxParamsAssign_spec (u : TxParams) (s : SuggestedParams) :
    (mkTxParamsAssign u s).flatFee = u.totalFee.isSome ∧
    (mkTxParamsAssign u s).fee =
      (if u.totalFee.isSome then
        max (u.totalFee.getD (u.feePerByte.getD ALGORAND_MIN_TX_FEE)) ALGORAND_MIN_TX_FEE
      else u.totalFee.getD (u.feePerByte.getD ALGORAND_MIN_TX_FEE)) ∧
    (mkTxParamsAssign u s).firstRound = u.firstValid.getD s.firstRound ∧
    (mkTxParamsAssign u s).lastRound =
      (match u.firstValid, u.validRounds with
      | some fv, some vr => fv + vr
      | _, _ => s.lastRound) ∧
    (mkTxParamsAssign u s).genesisID = s.genesisID ∧
    (mkTxParamsAssign u s).genesisHash = s.genesisHash := by
  unfold mkTxParamsAssign
  cases u.totalFee <;> cases u.firstValid <;> cases u.validRounds <;> simp

theorem mkTxParamsRef_read (u : TxParams) (r : Ref) (st : Store) (x : Ref) :
    (mkTxParamsRef u r st).2.read x =
      if x = r then mkTxParamsAssign u (st.read r) else st.read x := by
  unfold mkTxParamsRef mkTxParamsAssign
  cases u.totalFee <;> cases u.firstValid <;> cases u.validRounds <;>
    by_cases hx : x = r <;> simp [Store.read, Store.write, hx]

theorem mkTxParamsRef_fst (u : TxParams) (r : Ref) (st : Store) :
    (mkTxParamsRef u r st).1 = r := rfl

theorem mkTxParamsRef_next (u : TxParams) (r : Ref) (st : Store) :
    (mkTxParamsRef u r st).2.next = st.next := by
  unfold mkTxParamsRef
  cases u.totalFee <;> simp [Store.read, Store.write]

theorem mkTx_store_read (snapRef : Ref) (p : ExecParams) (st : Store) (x : Ref) :
    (mkTx snapRef p st).2.read x =
      if x = st.next then mkTxParamsAssign p.payFlags (st.read snapRef)
      else st.read x := by
  show (mkTxParamsRef p.payFlags ((st.alloc (st.read snapRef)).1)
      ((st.alloc (st.read snapRef)).2)).2.read x = _
  rw [Store.alloc_fst, mkTxParamsRef_read]
  by_cases hx : x = st.next <;> simp [hx, Store.read_alloc]

theorem mkTx_fst (snapRef : Ref) (p : ExecParams) (st : Store) :
    (mkTx snapRef p st).1 =
      mkTransaction p (mkTxParamsAssign p.payFlags (st.read snapRef)) := by
  show mkTransaction p ((mkTxParamsRef p.payFlags ((st.alloc (st.read snapRef)).1)
      ((st.alloc (st.read snapRef)).2)).2.read
      (mkTxParamsRef p.payFlags ((st.alloc (st.read snapRef)).1)
      ((st.alloc (st.read snapRef)).2)).1) = _
  rw [mkTxParamsRef_fst, Store.alloc_fst, mkTxParamsRef_read]
  simp [Store.read_alloc]

theorem mkTx_next (snapRef : Ref) (p : ExecParams) (st : Store) :
    (mkTx snapRef p st).2.next = st.next + 1 := by
  show (mkTxParamsRef p.payFlags ((st.alloc (st.read snapRef)).1)
      ((st.alloc (st.read snapRef)).2)).2.next = _
  rw [mkTxParamsRef_next, Store.alloc_next]

theorem mkTx_group (snapRef : Ref) (p : ExecParams) (st : Store) :
    (mkTx snapRef p st).1.group = none := by
  rw [mkTx_fst]; rfl

theorem buildAll_spec (ps : List ExecParams) (snapRef : Ref) (st : Store)
    (h : snapRef < st.next) :
    (buildAll ps snapRef st).1 =
      ps.map (fun p => mkTransaction p (mkTxParamsAssign p.payFlags (st.read snapRef))) ∧
    st.next ≤ (buildAll ps snapRef st).2.1.next ∧
    (∀ x, x < st.next → (buildAll ps snapRef st).2.1.read x = st.read x) ∧
    (buildAll ps snapRef st).2.2 = List.replicate ps.length Event.buildTx := by
  induction ps generalizing st with
  | nil => simp [buildAll]
  | cons p rest ih =>
    have hne : snapRef ≠ st.next := Nat.ne_of_lt h
    have hst1 : snapRef < (mkTx snapRef p st).2.next := by
      rw [mkTx_next]; exact Nat.lt_succ_of_lt h
    have ihh := ih (mkTx snapRef p st).2 hst1
    have hsnap : (mkTx snapRef p st).2.read snapRef = st.read snapRef := by
      rw [mkTx_store_read]; simp [hne]
    refine ⟨?_, ?_, ?_, ?_⟩
    · show (mkTx snapRef p st).1 :: (buildAll rest snapRef (mkTx snapRef p st).2).1 = _
      rw [mkTx_fst, ihh.1, hsnap]
      simp
    · show st.next ≤ (buildAll rest snapRef (mkTx snapRef p st).2).2.1.next
      have h2 := ihh.2.1
      rw [mkTx_next] at h2
      omega
    · intro x hx
      show (buildAll rest snapRef (mkTx snapRef p st).2).2.1.read x = st.read x
      rw [ihh.2.2.1 x (by rw [mkTx_next]; omega), mkTx_store_read]
      simp [Nat.ne_of_lt hx]
    · show Event.buildTx :: (buildAll rest snapRef (mkTx snapRef p st).2).2.2 = _
      rw [ihh.2.2.2]
      simp [List.replicate]

theorem signAll_events (ts : List Transaction) (ps : List ExecParams) :
    ∀ e ∈ (signAll ts ps).1, e = Event.signTx := by
  induction ts generalizing ps with
  | nil => intro e he; simp [signAll] at he
  | cons t ts ih =>
    intro e he
    cases ps with
    | nil => simp [signAll] at he
    | cons p ps =>
      rw [signAll] at he
      cases hsig : signTransaction t p with
      | error er => rw [hsig] at he; simp at he; simp [he]
      | ok b =>
        rw [hsig] at he
        cases hs : signAll ts ps with
        | mk evs res =>
          rw [hs] at he
          cases res with
          | error er =>
            simp at he
            rcases he with he | he
            · simp [he]
            · exact ih ps e (by rw [hs]; simpa using he)
          | ok bs =>
            simp at he
            rcases he with he | he
            · simp [he]
            · exact ih ps e (by rw [hs]; simpa using he)

theorem assignGroupID_bodies (txns : List Transaction) :
    (assignGroupID txns).map (fun t => t.body.params)
      = txns.map (fun t => t.body.params) := by
  simp [assignGroupID, List.map_map]

/-- C1: for every list of ExecParams of length 17 or more passed to
executeTransaction, nothing but the params fetch appears in the trace — no
transaction is built or signed, no group is assigned and no submission network
call is made — no transactions exist, and (whenever the initial params fetch
itself succeeds, i.e. the raw firstRound is not 0) the call fails with
GroupSizeExceededError. -/
theorem c1_group_size_checked_before_work (raw : SuggestedParams) (ps : List ExecParams)
    (hlen : 17 ≤ ps.length) :
    (∀ e ∈ (executeTransaction raw (ExecInput.list ps)).trace, e = Event.fetchParams) ∧
    (executeTransaction raw (ExecInput.list ps)).txns = [] ∧
    (raw.firstRound ≠ 0 →
      (executeTransaction raw (ExecInput.list ps)).result
        = .error Err.GroupSizeExceededError) := by
  have hgt : ps.length > 16 := by omega
  by_cases h0 : raw.firstRound = 0
  · simp [executeTransaction, getSuggestedParams, h0]
  · simp [executeTransaction, getSuggestedParams, h0, hgt]

/-- C1 witness: a 17-element list is rejected with GroupSizeExceededError. -/
theorem c1_group_size_checked_before_work_witness :
    (executeTransaction rawEx (ExecInput.list (List.replicate 17 pEx))).result
      = .error Err.GroupSizeExceededError :=
  (c1_group_size_checked_before_work rawEx (List.replicate 17 pEx)
    (by simp)).2.2 (by decide)

/-- C2: every successful mkTxParams resolution sets flatFee to true exactly
when totalFee is present, sets the fee to totalFee clamped from below by
ALGORAND_MIN_TX_FEE when totalFee is present, to feePerByte unclamped when
only feePerByte is present, and to ALGORAND_MIN_TX_FEE when neither is
present. -/
theorem c2_fee_resolution (raw : SuggestedParams) (u : TxParams)
    (s : Option SuggestedParams) (r : SuggestedParams)
    (h : mkTxParams raw u s = .ok r) :
    r.flatFee = u.totalFee.isSome ∧
    (∀ t, u.totalFee = some t → r.fee = max t ALGORAND_MIN_TX_FEE) ∧
    (∀ f, u.totalFee = none → u.feePerByte = some f → r.fee = f) ∧
    (u.totalFee = none → u.feePerByte = none → r.fee = ALGORAND_MIN_TX_FEE) := by
  obtain ⟨sp, rfl⟩ : ∃ sp, r = mkTxParamsAssign u sp := by
    cases s with
    | some sp =>
      refine ⟨sp, ?_⟩
      simp [mkTxParams] at h
      exact h.symm
    | none =>
      by_cases h0 : raw.firstRound = 0
      · simp [mkTxParams, getSuggestedParams, h0] at h
      · refine ⟨raw, ?_⟩
        simp [mkTxParams, getSuggestedParams, h0] at h
        exact h.symm
  have hs := mkTxParamsAssign_spec u sp
  refine ⟨hs.1, ?_, ?_, ?_⟩
  · intro t ht
    rw [hs.2.1]
    simp [ht]
  · intro f ht hf
    rw [hs.2.1]
    simp [ht, hf]
  · intro ht hf
    rw [hs.2.1]
    simp [ht, hf]

/-- C2 witness: totalFee 5000 gives flatFee true and fee max(5000, MIN); only
feePerByte 10 gives flatFee false and fee 10 unclamped. -/
theorem c2_fee_resolution_witness :
    (mkTxParamsAssign uEx rawEx).fee = max 5000 ALGORAND_MIN_TX_FEE ∧
    (mkTxParamsAssign uEx rawEx).flatFee = true ∧
    (mkTxParamsAssign { feePerByte := some 10 } rawEx).fee = 10 ∧
    (mkTxParamsAssign { feePerByte := some 10 } rawEx).flatFee = false := by
  refine ⟨(c2_fee_resolution rawEx uEx (some rawEx) _ rfl).2.1 5000 rfl, ?_, ?_, ?_⟩
  · exact (c2_fee_resolution rawEx uEx (some rawEx) _ rfl).1
  · exact (c2_fee_resolution rawEx { feePerByte := some 10 } (some rawEx) _ rfl).2.2.1
      10 rfl rfl
  · exact (c2_fee_resolution rawEx { feePerByte := some 10 } (some rawEx) _ rfl).1

/-- C3: when the raw fetched params carry firstRound 0, getSuggestedParams
fails with StaleNetworkError, every mkTxParams call that has to fetch (no
params supplied) fails with StaleNetworkError, and every executeTransaction
call fails with StaleNetworkError. -/
theorem c3_stale_network (raw : SuggestedParams) (u : TxParams) (input : ExecInput)
    (h0 : raw.firstRound = 0) :
    getSuggestedParams raw = .error Err.StaleNetworkError ∧
    mkTxParams raw u none = .error Err.StaleNetworkError ∧
    (executeTransaction raw input).result = .error Err.StaleNetworkError := by
  refine ⟨?_, ?_, ?_⟩ <;> simp [getSuggestedParams, mkTxParams, executeTransaction, h0]

/-- C3 witness: a raw response with firstRound 0 makes executeTransaction fail
with StaleNetworkError. -/
theorem c3_stale_network_witness :
    (executeTransaction rawStale (ExecInput.single pEx)).result
      = .error Err.StaleNetworkError :=
  (c3_stale_network rawStale {} (ExecInput.single pEx) rfl).2.2

/-- C4: every successful mkTxParams resolution sets firstRound to firstValid
when present (else the raw firstRound) and lastRound to firstValid +
validRounds exactly when both are supplied (else the raw lastRound). -/
theorem c4_validity_window (raw : SuggestedParams) (u : TxParams)
    (s : Option SuggestedParams) (r : SuggestedParams)
    (h : mkTxParams raw u s = .ok r) :
    r.firstRound = u.firstValid.getD ((s.getD raw).firstRound) ∧
    r.lastRound = (match u.firstValid, u.validRounds with
      | some fv, some vr => fv + vr
      | _, _ => (s.getD raw).lastRound) := by
  cases s with
  | some sp =>
    have hr : r = mkTxParamsAssign u sp := by
      simp [mkTxParams] at h
      exact h.symm
    subst hr
    have hs := mkTxParamsAssign_spec u sp
    simpa using ⟨hs.2.2.1, hs.2.2.2.1⟩
  | none =>
    by_cases h0 : raw.firstRound = 0
    · simp [mkTxParams, getSuggestedParams, h0] at h
    · have hr : r = mkTxParamsAssign u raw := by
        simp [mkTxParams, getSuggestedParams, h0] at h
        exact h.symm
      subst hr
      have hs := mkTxParamsAssign_spec u raw
      simpa using ⟨hs.2.2.1, hs.2.2.2.1⟩

/-- C4 witness: firstValid 100 with validRounds 50 resolves lastRound to 150,
and firstValid alone leaves lastRound at the raw value. -/
theorem c4_validity_window_witness :
    (mkTxParamsAssign uFV rawEx).lastRound = 150 ∧
    (mkTxParamsAssign { firstValid := some 100 } rawEx).lastRound = rawEx.lastRound ∧
    (mkTxParamsAssign uFV rawEx).firstRound = 100 := by
  refine ⟨?_, ?_, ?_⟩
  · have h := (c4_validity_window rawEx uFV (some rawEx) _ rfl).2
    simpa [uFV] using h
  · have h := (c4_validity_window rawEx { firstValid := some 100 } (some rawEx) _ rfl).2
    simpa using h
  · have h := (c4_validity_window rawEx uFV (some rawEx) _ rfl).1
    simpa [uFV] using h

/-- C7: signTransaction with SecretKey signs with fromAccount.sk; with
LogicSignature and no lsig it fails with MissingLogicSigError, with an lsig it
signs with that lsig; with any other SignType value it fails with
UnknownSignTypeError; and those two errors are the only possible failures. -/
theorem c7_sign_dispatch (txn : Transaction) (p : ExecParams) :
    (p.sign = SignType.SecretKey →
      signTransaction txn p = .ok (SignedBlob.bySk txn p.fromAccount.sk)) ∧
    (p.sign = SignType.LogicSignature → p.lsig = none →
      signTransaction txn p = .error Err.MissingLogicSigError) ∧
    (∀ l, p.sign = SignType.LogicSignature → p.lsig = some l →
      signTransaction txn p = .ok (SignedBlob.byLsig txn l)) ∧
    (∀ v, p.sign = SignType.other v →
      signTransaction txn p = .error Err.UnknownSignTypeError) ∧
    (∀ e, signTransaction txn p = .error e →
      e = Err.MissingLogicSigError ∨ e = Err.UnknownSignTypeError) := by
  refine ⟨fun h => ?_, fun h hl => ?_, fun l h hl => ?_, fun v h => ?_, fun e he => ?_⟩
  · simp [signTransaction, h]
  · simp [signTransaction, h, hl]
  · simp [signTransaction, h, hl]
  · simp [signTransaction, h]
  · unfold signTransaction at he
    cases hsig : p.sign with
    | SecretKey => rw [hsig] at he; simp at he
    | LogicSignature =>
      rw [hsig] at he
      cases hl : p.lsig with
      | none => rw [hl] at he; simp at he; exact Or.inl he.symm
      | some l => rw [hl] at he; simp at he
    | other v => rw [hsig] at he; simp at he; exact Or.inr he.symm

/-- C7 witness: the concrete secret-key ExecParams is signed with its
fromAccount secret key. -/
theorem c7_sign_dispatch_witness :
    signTransaction txEx pEx = .ok (SignedBlob.bySk txEx pEx.fromAccount.sk) :=
  (c7_sign_dispatch txEx pEx).1 rfl

/-- C10: a caller-supplied params object is never checked for staleness —
mkTxParams with an explicitly supplied object whose firstRound is 0 merges and
succeeds, and in particular never fails with any error. -/
theorem c10_caller_supplied_stale_params_accepted (raw : SuggestedParams)
    (u : TxParams) (s : SuggestedParams) (h0 : s.firstRound = 0) :
    mkTxParams raw u (some s) = .ok (mkTxParamsAssign u s) ∧
    ∀ e, mkTxParams raw u (some s) ≠ .error e := by
  refine ⟨rfl, fun e h => ?_⟩
  simp [mkTxParams] at h

/-- C10 witness: supplying the stale fixture explicitly is accepted. -/
theorem c10_caller_supplied_stale_params_accepted_witness :
    mkTxParams rawEx uEx (some rawStale) = .ok (mkTxParamsAssign uEx rawStale) :=
  (c10_caller_supplied_stale_params_accepted rawEx uEx rawStale rfl).1

/-- C5 counterexample: a list of length exactly 1 does NOT bypass grouping —
executeTransaction on the one-element list invokes the group-identifier
assignment and the built transaction ends up with a group identifier. -/
theorem c5_counterexample_singleton_list_grouped :
    Event.assignGroup ∈ (executeTransaction rawEx (ExecInput.list [pEx])).trace ∧
    (executeTransaction rawEx (ExecInput.list [pEx])).txns.map
      (fun t => t.group.isSome) = [true] := by
  decide

/-- C5 amended: only a single ExecParams (not wrapped in a list) bypasses
grouping — no group-identifier assignment occurs and the single built
transaction carries no group identifier; a list of length 1, by contrast, goes
through the array branch, where the group-identifier assignment is invoked and
the one transaction receives a group identifier. -/
theorem c5_single_bypasses_grouping_list_does_not (raw : SuggestedParams)
    (p : ExecParams) (h0 : raw.firstRound ≠ 0) :
    (Event.assignGroup ∉ (executeTransaction raw (ExecInput.single p)).trace ∧
      (executeTransaction raw (ExecInput.single p)).txns.map Transaction.group
        = [none]) ∧
    (Event.assignGroup ∈ (executeTransaction raw (ExecInput.list [p])).trace ∧
      (executeTransaction raw (ExecInput.list [p])).txns.map
        (fun t => t.group.isSome) = [true]) := by
  constructor
  · simp only [executeTransaction, getSuggestedParams_ok h0]
    cases hsig : signTransaction
        (mkTx (Store.empty.alloc raw).1 p (Store.empty.alloc raw).2).1 p with
    | error e => simp [hsig, mkTx_group]
    | ok b => simp [hsig, mkTx_group]
  · simp only [executeTransaction, getSuggestedParams_ok h0]
    simp only [buildAll]
    cases hsg : (signAll (assignGroupID
        [(mkTx (Store.empty.alloc raw).1 p (Store.empty.alloc raw).2).1]) [p]).2 with
    | error e => simp [hsg, assignGroupID]
    | ok bs => simp [hsg, assignGroupID]

/-- C5 amended witness: the single (non-list) fixture is not grouped. -/
theorem c5_single_bypasses_grouping_list_does_not_witness :
    Event.assignGroup ∉ (executeTransaction rawEx (ExecInput.single pEx)).trace :=
  (c5_single_bypasses_grouping_list_does_not rawEx pEx (by decide)).1.1

/-- C6 counterexample: deployment flags that carry both a base64 note (defined
but empty) and a raw note "hello" do NOT win — the empty base64 string is
falsy, the flags branch is skipped, and the note is encoded from the asset
definition's fields instead of from the flags' fields. -/
theorem c6_counterexample_empty_b64_falls_through :
    (makeAssetCreateTxn "gold" asaDefEx flagsEx rawEx).note
        = encodeNote asaDefEx.note asaDefEx.noteb64 ∧
    flagsEx.note = some "hello" ∧ flagsEx.noteb64 = some "" ∧
    (makeAssetCreateTxn "gold" asaDefEx flagsEx rawEx).note
        ≠ encodeNote flagsEx.note flagsEx.noteb64 := by
  decide

/-- C6 amended: the note of makeAssetCreateTxn is encoded from the flags'
fields only when the nullish-coalescing of flags.noteb64 and flags.note is a
truthy (defined, non-empty) string; otherwise, when the coalescing of
asaDef.noteb64 and asaDef.note is truthy, from the ASA definition's fields
only; otherwise the note is undefined — the two sources are never
concatenated or merged. -/
theorem c6_note_precedence_truthiness (name : String) (asaDef : ASADef)
    (flags : ASADeploymentFlags) (sp : SuggestedParams) :
    (jsTruthy (nullishOr flags.noteb64 flags.note) = true →
      (makeAssetCreateTxn name asaDef flags sp).note
        = encodeNote flags.note flags.noteb64) ∧
    (jsTruthy (nullishOr flags.noteb64 flags.note) = false →
      jsTruthy (nullishOr asaDef.noteb64 asaDef.note) = true →
      (makeAssetCreateTxn name asaDef flags sp).note
        = encodeNote asaDef.note asaDef.noteb64) ∧
    (jsTruthy (nullishOr flags.noteb64 flags.note) = false →
      jsTruthy (nullishOr asaDef.noteb64 asaDef.note) = false →
      (makeAssetCreateTxn name asaDef flags sp).note = none) := by
  refine ⟨fun h1 => ?_, fun h1 h2 => ?_, fun h1 h2 => ?_⟩
  · simp [makeAssetCreateTxn, h1]
  · simp [makeAssetCreateTxn, h1, h2]
  · simp [makeAssetCreateTxn, h1, h2]

/-- C6 amended witness: flags carrying a non-empty base64 note win over the
asset definition's note. -/
theorem c6_note_precedence_truthiness_witness :
    (makeAssetCreateTxn "gold" asaDefEx flagsB64 rawEx).note
      = encodeNote flagsB64.note flagsB64.noteb64 :=
  (c6_note_precedence_truthiness "gold" asaDefEx flagsB64 rawEx).1 (by decide)

/-- C9 counterexample: mkTxParams is not pure over the caller-supplied params
object — with a total fee supplied it flips the object's flatFee field in
place, so the object no longer holds its original value after the call, and it
returns the very same object (the same reference) rather than a distinct
one. -/
theorem c9_counterexample_mutates_in_place :
    (mkTxParamsRef uEx 0 stEx).1 = 0 ∧
    (mkTxParamsRef uEx 0 stEx).2.read 0 ≠ stEx.read 0 := by
  decide

/-- C9 amended: the merge mkTxParams performs is a pure function of the user
params and the supplied object's prior value (mkTxParamsAssign), and no other
object is touched — but it is applied by mutating the supplied object in
place, and the object mkTxParams returns is the supplied one itself. -/
theorem c9_merge_pure_but_applied_in_place (u : TxParams) (r : Ref) (st : Store) :
    (mkTxParamsRef u r st).1 = r ∧
    (mkTxParamsRef u r st).2.read r = mkTxParamsAssign u (st.read r) ∧
    (∀ x, x ≠ r → (mkTxParamsRef u r st).2.read x = st.read x) := by
  refine ⟨rfl, ?_, fun x hx => ?_⟩
  · rw [mkTxParamsRef_read]
    simp
  · rw [mkTxParamsRef_read]
    simp [hx]

/-- C9 amended witness: an unrelated object (reference 1) is untouched by the
call on reference 0. -/
theorem c9_merge_pure_but_applied_in_place_witness :
    (mkTxParamsRef uEx 0 stEx).2.read 1 = stEx.read 1 :=
  (c9_merge_pure_but_applied_in_place uEx 0 stEx).2.2 1 (by decide)

theorem count_fetch_eq_one {l : List Event} (h : Event.fetchParams ∉ l) :
    (Event.fetchParams :: l).count Event.fetchParams = 1 := by
  rw [List.count_cons_self, List.count_eq_zero.mpr h]

/-- C8: every executeTransaction call (not rejected for size, on a healthy
network) records exactly one raw params fetch in its trace; the shared
snapshot object still holds the raw fetched value after all builds (no build
mutated it, each build worked on its own copy); and every built transaction's
params are the merge of its own user params with the same raw snapshot. -/
theorem c8_single_fetch_shared_snapshot (raw : SuggestedParams) (input : ExecInput)
    (h0 : raw.firstRound ≠ 0) (hsz : sizeOk input = true) :
    (executeTransaction raw input).trace.count Event.fetchParams = 1 ∧
    (executeTransaction raw input).store.read (executeTransaction raw input).snapRef
      = raw ∧
    (executeTransaction raw input).txns.map (fun t => t.body.params)
      = (inputList input).map (fun p => mkTxParamsAssign p.payFlags raw) := by
  have hlt : (Store.empty.alloc raw).1 < (Store.empty.alloc raw).2.next :=
    Nat.zero_lt_one
  have hread0 : (Store.empty.alloc raw).2.read (Store.empty.alloc raw).1 = raw := rfl
  cases input with
  | single p =>
    simp only [executeTransaction, getSuggestedParams_ok h0]
    have hm1 : (mkTx (Store.empty.alloc raw).1 p (Store.empty.alloc raw).2).1
        = mkTransaction p (mkTxParamsAssign p.payFlags raw) := by
      rw [mkTx_fst, hread0]
    have hm2 : (mkTx (Store.empty.alloc raw).1 p (Store.empty.alloc raw).2).2.read
        (Store.empty.alloc raw).1 = raw := by
      rw [mkTx_store_read]
      simp [Store.alloc, Store.empty, Store.read]
    cases hsig : signTransaction
        (mkTx (Store.empty.alloc raw).1 p (Store.empty.alloc raw).2).1 p with
    | error e =>
      simp only [hsig]
      exact ⟨rfl, hm2, by simp [hm1, mkTransaction, inputList]⟩
    | ok b =>
      simp only [hsig]
      exact ⟨rfl, hm2, by simp [hm1, mkTransaction, inputList]⟩
  | list ps =>
    have hle : ps.length ≤ 16 := by simpa [sizeOk] using hsz
    have hng : ¬ ps.length > 16 := by omega
    have hb := buildAll_spec ps (Store.empty.alloc raw).1 (Store.empty.alloc raw).2 hlt
    have hsnapfinal : (buildAll ps (Store.empty.alloc raw).1
        (Store.empty.alloc raw).2).2.1.read (Store.empty.alloc raw).1 = raw := by
      rw [hb.2.2.1 (Store.empty.alloc raw).1 hlt, hread0]
    have htx : (assignGroupID (buildAll ps (Store.empty.alloc raw).1
        (Store.empty.alloc raw).2).1).map (fun t => t.body.params)
        = ps.map (fun p => mkTxParamsAssign p.payFlags raw) := by
      rw [assignGroupID_bodies, hb.1]
      simp only [hread0]
      simp [mkTransaction, List.map_map]
    have hnb : Event.fetchParams ∉ (buildAll ps (Store.empty.alloc raw).1
        (Store.empty.alloc raw).2).2.2 := by
      rw [hb.2.2.2]
      simp [List.mem_replicate]
    have hns : Event.fetchParams ∉ (signAll (assignGroupID (buildAll ps
        (Store.empty.alloc raw).1 (Store.empty.alloc raw).2).1) ps).1 := fun hm =>
      absurd (signAll_events _ _ _ hm) (by decide)
    simp only [executeTransaction, getSuggestedParams_ok h0]
    rw [if_neg hng]
    cases hsg : (signAll (assignGroupID (buildAll ps (Store.empty.alloc raw).1
        (Store.empty.alloc raw).2).1) ps).2 with
    | error e =>
      simp only [hsg]
      refine ⟨count_fetch_eq_one ?_, hsnapfinal, htx⟩
      intro hm
      rcases List.mem_append.mp hm with h | h
      · exact hnb h
      · rcases List.mem_cons.mp h with h | h
        · exact Event.noConfusion h
        · exact hns h
    | ok bs =>
      simp only [hsg]
      refine ⟨count_fetch_eq_one ?_, hsnapfinal, htx⟩
      intro hm
      rcases List.mem_append.mp hm with h | h
      · rcases List.mem_append.mp h with h | h
        · exact hnb h
        · rcases List.mem_cons.mp h with h | h
          · exact Event.noConfusion h
          · exact hns h
      · exact Event.noConfusion (List.mem_singleton.mp h)

/-- C8 witness: the concrete one-element list run fetches params exactly
once. -/
theorem c8_single_fetch_shared_snapshot_witness :
    (executeTransaction rawEx (ExecInput.list [pEx])).trace.count Event.fetchParams
      = 1 :=
  (c8_single_fetch_shared_snapshot rawEx (ExecInput.list [pEx]) (by decide)
    (by decide)).1

end AlgoBuilder
